import Mathlib

/-!
Verification of the investment-advisor orchestrator core.

Shallow embedding of `src/orchestrator/state.py`, `src/orchestrator/termination_rules.py`
and `src/orchestrator/orchestrator.py` (class `Orchestrator`), together with proofs of the
spec's testable properties about them.

Modelling conventions:
* Python `float` confidences are modelled as exact rationals `ℚ`
  (the code compares against the exactly representable constant `0.75`).
* Python dicts with fixed keys become structures; the heterogeneous `details`
  dict of an `EvaluationResult` becomes an association list from keys to a
  `PyVal` value, a flat enumeration of the value shapes the source ever puts
  into a details dict.
* A Python call that may raise is modelled as `Except`; a falsy optional
  object (`None` engine) is `Option.none`.
* The external reasoning service is opaque I/O: the prompt string built by the
  code is pure string assembly read by nothing in the loop, so the service is
  modelled by the outcome of its `reason()` call (raise, or a response record)
  as a function of the state at call time.
-/

/-- Value shapes occurring in the `details` dict of an `EvaluationResult`
(see the dict literals in `termination_rules.py`). -/
inductive PyVal where
  | str (s : String)
  | num (q : ℚ)
  | int (n : Nat)
  | strList (l : List String)
  | strDict (d : List (String × String))
  | strListDict (d : List (String × List String))
  | numDict (d : List (String × ℚ))
deriving DecidableEq, Repr

/-- `AgentOutput` from `state.py`: the mandatory output record every agent
must return.  `verdict` is kept as a string, as in the Python `TypedDict`
(the `Literal` type is not enforced at runtime); `metrics` is an opaque
agent-specific dict, modelled as a string association list. -/
structure AgentOutput where
  agent_name : String
  verdict : String
  confidence : ℚ
  key_findings : List String
  blocking_issues : List String
  recommendations : List String
  reasoning : String
  metrics : List (String × String)
deriving DecidableEq, Repr

/-- A raw dict returned by an agent callable before validation: every key of
the `AgentOutput` contract may be present or absent. -/
structure CandidateOutput where
  agent_name : Option String
  verdict : Option String
  confidence : Option ℚ
  key_findings : Option (List String)
  blocking_issues : Option (List String)
  recommendations : Option (List String)
  reasoning : Option String
  metrics : Option (List (String × String))
deriving DecidableEq, Repr

/-- `EvaluationResult` from `state.py`. -/
structure EvaluationResult where
  action : String
  reason : String
  details : List (String × PyVal)
deriving DecidableEq, Repr

/-- One entry of `debate_history`, as built in `Orchestrator.orchestrate`
step 4: the iteration number, each tracked agent's verdict (or `none`), and
the stored decision's reason (or `none`). -/
structure IterationRecord where
  iteration : Nat
  verdicts : List (String × Option String)
  decision : Option String
deriving DecidableEq, Repr

/-- `CouncilState` from `state.py`, restricted to the fields the orchestrator
reads or writes.  The four immutable inputs (`user_profile`, `asset_candidate`,
`market_context`, `position`) are only ever copied into agent inputs and into
prompt strings, never branched on by the core, so they are omitted here and
folded into the agent/engine behaviour functions.  `modification_synthesis`
and `pending_modifications` are the dynamic keys written by
`Orchestrator.apply_modifications`. -/
structure CouncilState where
  risk_qualification : Option AgentOutput
  devils_advocate : Option AgentOutput
  personal_suitability : Option AgentOutput
  market_analysis : Option AgentOutput
  feasibility_analysis : Option AgentOutput
  iteration : Nat
  decision : Option EvaluationResult
  max_iterations : Nat
  debate_history : List IterationRecord
  modification_synthesis : Option (List (String × String))
  pending_modifications : Option (List (String × List String))
deriving DecidableEq, Repr

/-- The output collection step shared by `evaluate_council` and
`evaluate_with_ai_engine`: the five fixed slots in source order, with `None`
values filtered out. -/
def councilOutputs (s : CouncilState) : List AgentOutput :=
  [s.risk_qualification, s.devils_advocate, s.personal_suitability,
   s.market_analysis, s.feasibility_analysis].filterMap id

/-- `evaluate_council` from `termination_rules.py`: the deterministic
rule cascade (no outputs / any REJECT / any blocking issues / mean
confidence below 0.75 / consensus). -/
def evaluate_council (s : CouncilState) : EvaluationResult :=
  let outputs := councilOutputs s
  if outputs.isEmpty then
    { action := "REITERATE", reason := "NO_OUTPUTS",
      details := [("message", .str "Waiting for agent outputs")] }
  else if outputs.any (fun o => o.verdict == "REJECT") then
    { action := "REITERATE", reason := "REJECT",
      details := [("rejecting_agents",
        .strList ((outputs.filter (fun o => o.verdict == "REJECT")).map (fun o => o.agent_name)))] }
  else
    let blocking_agents :=
      (outputs.filter (fun o => !o.blocking_issues.isEmpty)).map
        (fun o => (o.agent_name, o.blocking_issues))
    if !blocking_agents.isEmpty then
      { action := "REITERATE", reason := "BLOCKING_ISSUES",
        details := [("blocking_agents", .strListDict blocking_agents)] }
    else
      -- the source threshold 0.75 is the exact rational 3/4
      let avg_confidence := (outputs.map (fun o => o.confidence)).sum / (outputs.length : ℚ)
      if avg_confidence < (3 : ℚ)/4 then
        { action := "REITERATE", reason := "LOW_CONFIDENCE",
          details := [("average_confidence", .num avg_confidence),
                      ("threshold", .num ((3 : ℚ)/4)),
                      ("agent_confidences",
                        .numDict (outputs.map (fun o => (o.agent_name, o.confidence))))] }
      else
        { action := "TERMINATE", reason := "CONSENSUS",
          details := [("average_confidence", .num avg_confidence),
                      ("verdicts", .strDict (outputs.map (fun o => (o.agent_name, o.verdict)))),
                      ("agent_count", .int outputs.length)] }

/-- `should_terminate` from `termination_rules.py`.  Note: it re-runs
`evaluate_council` on the state; it does not read `state["decision"]`.
`state.get("max_iterations", 5)` is the structure field, which the modelled
lifecycle always sets. -/
def should_terminate (s : CouncilState) : Bool :=
  let evaluation := evaluate_council s
  let max_iterations := s.max_iterations
  let current_iteration := s.iteration
  if current_iteration ≥ max_iterations then true
  else if evaluation.action == "TERMINATE" then true
  else false

/-- The structured response dict expected from the reasoning service's
`reason()` call: the fields `evaluate_with_ai_engine` reads with `.get`.
A response that is not a dict of (optional) strings makes the Python
accessors raise inside the `try` block and is therefore modelled as the
raising outcome of the call. -/
structure AIResponse where
  action : Option String
  reason : Option String
  ai_reasoning : Option String
deriving DecidableEq, Repr

/-- Python `str.upper()`, modelled on the character list (the ASCII action
strings are all this program ever uppercases). -/
def strUpper (s : String) : String := String.mk (s.data.map Char.toUpper)

/-- `evaluate_with_ai_engine` from `termination_rules.py`.
`engineOutcome` is `none` for a falsy `ai_engine`, `some (.error ())` when
`ai_engine.reason(prompt)` raises, and `some (.ok r)` when it returns the
response `r`.  The `user_profile`/`asset_candidate` arguments and the prompt
construction are pure string assembly feeding only the service call, hence
absorbed into the call's outcome. -/
def evaluate_with_ai_engine (engineOutcome : Option (Except Unit AIResponse))
    (s : CouncilState) : EvaluationResult :=
  let outputs := councilOutputs s
  if outputs.isEmpty then
    { action := "REITERATE", reason := "NO_OUTPUTS",
      details := [("message", .str "Waiting for agent outputs")] }
  else
    match engineOutcome with
    | none => evaluate_council s
    | some (.error _) => evaluate_council s
    | some (.ok result) =>
        let action0 := strUpper (result.action.getD "REITERATE")
        let action := if action0 == "REITERATE" || action0 == "TERMINATE" then action0
                      else "REITERATE"
        { action := action,
          reason := "AI_DECISION: " ++ result.reason.getD "No reason",
          details := [("ai_reasoning", .str (result.ai_reasoning.getD "No reasoning")),
                      ("agent_verdicts", .strDict (outputs.map (fun o => (o.agent_name, o.verdict)))),
                      ("agent_confidences", .numDict (outputs.map (fun o => (o.agent_name, o.confidence)))),
                      ("total_agents", .int outputs.length)] }

/-- The `required_keys` membership test of `Orchestrator._validate_agent_output`:
the seven keys the source checks (`reasoning` is not among them). -/
def requiredKeysPresent (o : CandidateOutput) : Bool :=
  o.agent_name.isSome && o.verdict.isSome && o.confidence.isSome &&
  o.key_findings.isSome && o.blocking_issues.isSome &&
  o.recommendations.isSome && o.metrics.isSome

/-- `Orchestrator._validate_agent_output`: required keys present, verdict one
of the three legal values, confidence within `[0, 1]`. -/
def validate_agent_output (o : CandidateOutput) : Bool :=
  if !requiredKeysPresent o then false
  else if !(["APPROVE", "MODIFY", "REJECT"].contains (o.verdict.getD "")) then false
  else if !(decide ((0 : ℚ) ≤ o.confidence.getD 0) && decide (o.confidence.getD 0 ≤ 1)) then false
  else true

/-- View of a validated candidate dict as a full `AgentOutput` record.
Validation guarantees the seven required keys are present; the optional
`reasoning` value is read by the source only through
`output.get("reasoning", ...)` inside prompt construction, so its default
here is unobservable. -/
def CandidateOutput.toOutput (c : CandidateOutput) : AgentOutput :=
  { agent_name := c.agent_name.getD ""
    verdict := c.verdict.getD ""
    confidence := c.confidence.getD 0
    key_findings := c.key_findings.getD []
    blocking_issues := c.blocking_issues.getD []
    recommendations := c.recommendations.getD []
    reasoning := c.reasoning.getD ""
    metrics := c.metrics.getD [] }

/-- `Orchestrator._store_agent_output`: the `state_key_map` maps each of the
five known agent names to its own slot; `dict.get` yields `None` for any
other name, in which case nothing is stored. -/
def store_agent_output (s : CouncilState) (agent_name : String)
    (output : AgentOutput) : CouncilState :=
  if agent_name == "risk_qualification" then { s with risk_qualification := some output }
  else if agent_name == "devils_advocate" then { s with devils_advocate := some output }
  else if agent_name == "personal_suitability" then { s with personal_suitability := some output }
  else if agent_name == "market_analysis" then { s with market_analysis := some output }
  else if agent_name == "feasibility_analysis" then { s with feasibility_analysis := some output }
  else s

/-- The behaviour of one registered agent callable, as a function of the
state at call time: `Orchestrator.call_agents` invokes
`agent_func(self._prepare_agent_input(state, name))`, where
`_prepare_agent_input` is a pure read-only projection of the state, so the
composite is a function of the state that either raises (`.error`) or
returns a raw output dict (`.ok`).  A non-raising callable whose returned
value makes the validator's accessors raise (e.g. a non-numeric confidence)
is also the `.error` outcome: that exception is caught by the same handler. -/
def AgentFun : Type := CouncilState → Except Unit CandidateOutput

/-- The body of the per-agent `try` block of `Orchestrator.call_agents`:
invoke, skip (`continue`) on exception, skip on failed validation, otherwise
store the output in the agent's slot. -/
def call_agent_step (s : CouncilState) (agent_name : String) (f : AgentFun) :
    CouncilState :=
  match f s with
  | .error _ => s
  | .ok output =>
      if !validate_agent_output output then s
      else store_agent_output s agent_name output.toOutput

/-- `Orchestrator.call_agents`: iterate the registered agents in registration
order (Python dicts preserve insertion order), applying the per-agent step to
the running state. -/
def call_agents (agents : List (String × AgentFun)) (s : CouncilState) : CouncilState :=
  agents.foldl (fun st a => call_agent_step st a.1 a.2) s

/-- The reasoning-service engine as seen by the orchestrator: the outcome of
`reason()` on the evaluation prompt and on the modification-synthesis prompt,
each a function of the state the prompt was built from.  The synthesis call's
error message is kept because `_synthesize_modifications_with_ai` stores
`{"error": str(e)}` on failure. -/
structure AIEngine where
  evalOutcome : CouncilState → Except Unit AIResponse
  synthOutcome : CouncilState → Except String (List (String × String))

/-- The orchestrator's configuration: `max_iterations`, `use_ai_decisions`,
the optional AI engine, and the registered agents. -/
structure Orchestrator where
  max_iterations : Nat
  use_ai_decisions : Bool
  ai_engine : Option AIEngine
  agents : List (String × AgentFun)

/-- `Orchestrator.evaluate_and_decide`: AI-engine evaluation when configured
and available, otherwise the deterministic rules; the result is stored in
`state["decision"]`. -/
def evaluate_and_decide (o : Orchestrator) (s : CouncilState) : CouncilState :=
  let evaluation :=
    if o.use_ai_decisions && o.ai_engine.isSome then
      evaluate_with_ai_engine (o.ai_engine.map (fun e => e.evalOutcome s)) s
    else
      evaluate_council s
  { s with decision := some evaluation }

/-- The history snapshot built in step 4 of `Orchestrator.orchestrate`. -/
def iteration_record (s : CouncilState) : IterationRecord :=
  { iteration := s.iteration
    verdicts :=
      [("risk_qualification", s.risk_qualification.map (fun o => o.verdict)),
       ("devils_advocate", s.devils_advocate.map (fun o => o.verdict)),
       ("personal_suitability", s.personal_suitability.map (fun o => o.verdict)),
       ("market_analysis", s.market_analysis.map (fun o => o.verdict)),
       ("feasibility_analysis", s.feasibility_analysis.map (fun o => o.verdict))]
    decision := s.decision.map (fun d => d.reason) }

/-- `Orchestrator.apply_modifications`: collect the (agent, recommendations)
pairs of the outputs whose verdict is MODIFY; if any, either store the AI
synthesis outcome (`modification_synthesis`, an `{"error": ...}` record when
the call raised) or, with no engine, store the raw list
(`pending_modifications`). -/
def apply_modifications (synthOutcome : Option (Except String (List (String × String))))
    (s : CouncilState) : CouncilState :=
  let modify_agents :=
    (councilOutputs s).filterMap (fun o =>
      if o.verdict == "MODIFY" then some (o.agent_name, o.recommendations) else none)
  if modify_agents.isEmpty then s
  else
    match synthOutcome with
    | some (.ok synthesis) => { s with modification_synthesis := some synthesis }
    | some (.error e) => { s with modification_synthesis := some [("error", e)] }
    | none => { s with pending_modifications := some modify_agents }

/-- Steps 1–4 of the `while True` body of `Orchestrator.orchestrate`:
increment the iteration, call the agents, evaluate and store the decision,
append the history snapshot. -/
def pass_pre (o : Orchestrator) (s : CouncilState) : CouncilState :=
  let s1 := { s with iteration := s.iteration + 1 }
  let s2 := call_agents o.agents s1
  let s3 := evaluate_and_decide o s2
  { s3 with debate_history := s3.debate_history ++ [iteration_record s3] }

/-- Step 6 of the loop body: `apply_modifications`, with the synthesis call's
outcome drawn from the engine on the current state. -/
def pass_post (o : Orchestrator) (s : CouncilState) : CouncilState :=
  apply_modifications (o.ai_engine.map (fun e => e.synthOutcome s)) s

lemma store_agent_output_iter_max (s : CouncilState) (n : String) (out : AgentOutput) :
    (store_agent_output s n out).iteration = s.iteration ∧
    (store_agent_output s n out).max_iterations = s.max_iterations := by
  unfold store_agent_output
  split_ifs <;> exact ⟨rfl, rfl⟩

lemma call_agent_step_iter_max (s : CouncilState) (n : String) (f : AgentFun) :
    (call_agent_step s n f).iteration = s.iteration ∧
    (call_agent_step s n f).max_iterations = s.max_iterations := by
  unfold call_agent_step
  rcases f s with _ | c
  · exact ⟨rfl, rfl⟩
  · simp only
    split
    · exact ⟨rfl, rfl⟩
    · exact store_agent_output_iter_max ..

lemma call_agents_iter_max (agents : List (String × AgentFun)) (s : CouncilState) :
    (call_agents agents s).iteration = s.iteration ∧
    (call_agents agents s).max_iterations = s.max_iterations := by
  induction agents generalizing s with
  | nil => exact ⟨rfl, rfl⟩
  | cons a rest ih =>
      have h1 := call_agent_step_iter_max s a.1 a.2
      have h2 := ih (call_agent_step s a.1 a.2)
      exact ⟨h2.1.trans h1.1, h2.2.trans h1.2⟩

lemma apply_modifications_iter_max (so : Option (Except String (List (String × String))))
    (s : CouncilState) :
    (apply_modifications so s).iteration = s.iteration ∧
    (apply_modifications so s).max_iterations = s.max_iterations := by
  unfold apply_modifications
  simp only
  split
  · exact ⟨rfl, rfl⟩
  · rcases so with _ | e
    · exact ⟨rfl, rfl⟩
    · rcases e with e | v <;> exact ⟨rfl, rfl⟩

lemma pass_pre_iter_max (o : Orchestrator) (s : CouncilState) :
    (pass_pre o s).iteration = s.iteration + 1 ∧
    (pass_pre o s).max_iterations = s.max_iterations := by
  unfold pass_pre evaluate_and_decide
  simp only
  exact call_agents_iter_max o.agents { s with iteration := s.iteration + 1 }

lemma pass_post_iter_max (o : Orchestrator) (s : CouncilState) :
    (pass_post o s).iteration = s.iteration ∧
    (pass_post o s).max_iterations = s.max_iterations := by
  unfold pass_post
  exact apply_modifications_iter_max ..

/-- The `while True` loop of `Orchestrator.orchestrate`, starting from an
arbitrary current state.  One pass runs steps 1–4 (`pass_pre`); step 5
returns the state if `should_terminate`; otherwise step 6 runs
`apply_modifications` (`pass_post`) and step 7 overwrites the decision with
the bare `{action: TERMINATE, reason: MAX_ITERATIONS}` dict (which carries
no `details` key, modelled by the empty mapping) if the iteration cap was
reached, else the loop repeats.  Termination of the recursion: each pass
increments `iteration` and leaves `max_iterations` unchanged, and the loop
only repeats while `iteration < max_iterations`. -/
def orchestrate_loop (o : Orchestrator) (s : CouncilState) : CouncilState :=
  let s4 := pass_pre o s
  if should_terminate s4 then s4
  else
    let s5 := pass_post o s4
    if h : s5.max_iterations ≤ s5.iteration then
      { s5 with decision := some { action := "TERMINATE", reason := "MAX_ITERATIONS", details := [] } }
    else orchestrate_loop o s5
termination_by s.max_iterations - s.iteration
decreasing_by
  unfold_let s5 s4 at h ⊢
  have h1 := pass_pre_iter_max o s
  have h2 := pass_post_iter_max o (pass_pre o s)
  simp only [h1.1, h1.2, h2.1, h2.2] at h ⊢
  omega

/-- `Orchestrator.orchestrate`: run the loop from the freshly constructed
state (iteration 0, empty slots, empty history, `max_iterations` from the
orchestrator's configuration). -/
def initState (max_iterations : Nat) : CouncilState :=
  { risk_qualification := none, devils_advocate := none, personal_suitability := none,
    market_analysis := none, feasibility_analysis := none,
    iteration := 0, decision := none, max_iterations := max_iterations,
    debate_history := [], modification_synthesis := none, pending_modifications := none }

def orchestrate (o : Orchestrator) : CouncilState :=
  orchestrate_loop o (initState o.max_iterations)

/-- The arithmetic mean of the present outputs' confidences, as computed by
rule 3 of `evaluate_council`. -/
def meanConfidence (s : CouncilState) : ℚ :=
  ((councilOutputs s).map (fun o => o.confidence)).sum / ((councilOutputs s).length : ℚ)

/-- A fully populated agent output used for concrete runs and witnesses. -/
def exOutput (name verdict : String) (conf : ℚ) (blocking : List String) : AgentOutput :=
  { agent_name := name, verdict := verdict, confidence := conf,
    key_findings := ["finding"], blocking_issues := blocking,
    recommendations := ["rec"], reasoning := "because", metrics := [] }

/-- A fully populated candidate dict (all keys present). -/
def exCandidate (name verdict : String) (conf : ℚ) : CandidateOutput :=
  { agent_name := some name, verdict := some verdict, confidence := some conf,
    key_findings := some ["finding"], blocking_issues := some [],
    recommendations := some ["rec"], reasoning := some "because", metrics := some [] }

/-- State with a single APPROVE output of confidence 9/10. -/
def sOneApprove : CouncilState :=
  { initState 5 with
    risk_qualification := some (exOutput "risk_qualification" "APPROVE" (9/10) []) }

/-- State matching the spec example: one REJECT against two high-confidence
APPROVEs. -/
def sRejectEx : CouncilState :=
  { initState 5 with
    risk_qualification := some (exOutput "risk_qualification" "REJECT" (9/10) []),
    devils_advocate := some (exOutput "devils_advocate" "APPROVE" (9/10) []),
    personal_suitability := some (exOutput "personal_suitability" "APPROVE" (19/20) []) }

/-- State matching the spec example: confidences 0.9, 0.8, 0.6, all APPROVE,
no blocking issues (mean 23/30 ≥ 3/4). -/
def sConsensusEx : CouncilState :=
  { initState 5 with
    risk_qualification := some (exOutput "risk_qualification" "APPROVE" (9/10) []),
    devils_advocate := some (exOutput "devils_advocate" "APPROVE" (4/5) []),
    personal_suitability := some (exOutput "personal_suitability" "APPROVE" (3/5) []) }

/-- An agent that always raises. -/
def agentRaises : AgentFun := fun _ => .error ()

/-- An agent that always returns a valid APPROVE output of confidence 8/10. -/
def agentOk : AgentFun := fun _ => .ok (exCandidate "risk_qualification" "APPROVE" (8/10))

/-- An agent that always returns a valid APPROVE output of confidence 1/2,
which keeps the rules evaluator below the 0.75 consensus threshold forever. -/
def agentLowConf : AgentFun := fun _ => .ok (exCandidate "risk_qualification" "APPROVE" (1/2))

/-- Rules-mode orchestrator with `max_iterations = 2` and one registered
agent that never produces consensus. -/
def orchC1 : Orchestrator :=
  { max_iterations := 2, use_ai_decisions := false, ai_engine := none,
    agents := [("risk_qualification", agentLowConf)] }

/-- A reasoning-service response carrying action TERMINATE. -/
def respTerminate : AIResponse :=
  { action := some "TERMINATE", reason := some "ok", ai_reasoning := none }

/-- Engine whose evaluation call always returns `respTerminate`. -/
def engineTerminate : AIEngine :=
  { evalOutcome := fun _ => .ok respTerminate, synthOutcome := fun _ => .error "unused" }

/-- AI-mode orchestrator with `max_iterations = 3`, an engine that always
says TERMINATE, and one low-confidence agent. -/
def orchC2 : Orchestrator :=
  { max_iterations := 3, use_ai_decisions := true, ai_engine := some engineTerminate,
    agents := [("risk_qualification", agentLowConf)] }

/-- A malformed reasoning-service response: its action is not one of the two
legal values. -/
def respMalformed : AIResponse := { action := some "FOO", reason := none, ai_reasoning := none }

/-- A candidate output that is valid in every respect except that the
`reasoning` key is absent. -/
def cNoReasoning : CandidateOutput :=
  { exCandidate "agent_x" "APPROVE" (1/2) with reasoning := none }

/-- The stored form of `agentLowConf`'s output. -/
def lowOut : AgentOutput := exOutput "risk_qualification" "APPROVE" (1/2) []

/-- The rules evaluation of a state whose only output is `lowOut`:
REITERATE/LOW_CONFIDENCE at mean confidence 1/2. -/
def Rlow : EvaluationResult :=
  { action := "REITERATE", reason := "LOW_CONFIDENCE",
    details := [("average_confidence", PyVal.num ((1 : ℚ)/2)),
                ("threshold", PyVal.num ((3 : ℚ)/4)),
                ("agent_confidences", PyVal.numDict [("risk_qualification", (1 : ℚ)/2)])] }

/-- The AI evaluation of a state whose only output is `lowOut`, under
`engineTerminate`. -/
def Rai : EvaluationResult :=
  { action := "TERMINATE", reason := "AI_DECISION: ok",
    details := [("ai_reasoning", PyVal.str "No reasoning"),
                ("agent_verdicts", PyVal.strDict [("risk_qualification", "APPROVE")]),
                ("agent_confidences", PyVal.numDict [("risk_qualification", (1 : ℚ)/2)]),
                ("total_agents", PyVal.int 1)] }

/-- The history snapshot recorded at iteration `k` of the runs driven by
`agentLowConf`, with stored decision reason `r`. -/
def lowRecord (k : Nat) (r : String) : IterationRecord :=
  { iteration := k,
    verdicts := [("risk_qualification", some "APPROVE"), ("devils_advocate", none),
                 ("personal_suitability", none), ("market_analysis", none),
                 ("feasibility_analysis", none)],
    decision := some r }

/-- The state of the `orchC1` run after its first loop pass. -/
def C1s1 : CouncilState :=
  { initState 2 with
    risk_qualification := some lowOut, iteration := 1,
    decision := some Rlow, debate_history := [lowRecord 1 "LOW_CONFIDENCE"] }

/-- The state of the `orchC1` run after its second loop pass. -/
def C1s2 : CouncilState :=
  { initState 2 with
    risk_qualification := some lowOut, iteration := 2,
    decision := some Rlow,
    debate_history := [lowRecord 1 "LOW_CONFIDENCE", lowRecord 2 "LOW_CONFIDENCE"] }

/-- The state of the `orchC2` run after its first loop pass. -/
def C2s1 : CouncilState :=
  { initState 3 with
    risk_qualification := some lowOut, iteration := 1,
    decision := some Rai, debate_history := [lowRecord 1 "AI_DECISION: ok"] }

/-- The state of the `orchC2` run after its second loop pass. -/
def C2s2 : CouncilState :=
  { initState 3 with
    risk_qualification := some lowOut, iteration := 2,
    decision := some Rai,
    debate_history := [lowRecord 1 "AI_DECISION: ok", lowRecord 2 "AI_DECISION: ok"] }

/-- The state of the `orchC2` run after its third loop pass. -/
def C2s3 : CouncilState :=
  { initState 3 with
    risk_qualification := some lowOut, iteration := 3,
    decision := some Rai,
    debate_history := [lowRecord 1 "AI_DECISION: ok", lowRecord 2 "AI_DECISION: ok",
                       lowRecord 3 "AI_DECISION: ok"] }

lemma should_terminate_false_lt (s : CouncilState) (h : should_terminate s = false) :
    s.iteration < s.max_iterations := by
  unfold should_terminate at h
  by_cases hc : s.iteration ≥ s.max_iterations
  · simp [hc] at h
  · omega

/-- In `orchestrate`, the step-7 `MAX_ITERATIONS` overwrite is dead code:
reaching it requires `should_terminate` to have been false at step 5, which
already implies `iteration < max_iterations`, while `apply_modifications`
changes neither counter. -/
lemma max_overwrite_unreachable (o : Orchestrator) (s : CouncilState)
    (h1 : should_terminate (pass_pre o s) = false) :
    ¬ (pass_post o (pass_pre o s)).max_iterations ≤ (pass_post o (pass_pre o s)).iteration := by
  have hp := pass_post_iter_max o (pass_pre o s)
  have hlt := should_terminate_false_lt _ h1
  omega

lemma orchestrate_loop_stop (o : Orchestrator) (s : CouncilState)
    (h : should_terminate (pass_pre o s) = true) :
    orchestrate_loop o s = pass_pre o s := by
  rw [orchestrate_loop]
  simp [h]

lemma orchestrate_loop_continue (o : Orchestrator) (s : CouncilState)
    (h1 : should_terminate (pass_pre o s) = false) :
    orchestrate_loop o s = orchestrate_loop o (pass_post o (pass_pre o s)) := by
  rw [orchestrate_loop]
  simp [h1, max_overwrite_unreachable o s h1]

lemma councilOutputs_isEmpty_false (s : CouncilState) (hne : councilOutputs s ≠ []) :
    (councilOutputs s).isEmpty = false := by
  cases h : councilOutputs s with
  | nil => exact absurd h hne
  | cons a l => rfl

/-- Claim C6: whenever at least one present output carries verdict REJECT,
rule 1 of the cascade fires: the result is REITERATE with reason REJECT and
the details list exactly the rejecting agents' names, regardless of any
confidence or blocking issues (those rules are never reached). -/
theorem C6_reject_short_circuits (s : CouncilState)
    (hne : councilOutputs s ≠ [])
    (hrej : ∃ o ∈ councilOutputs s, o.verdict = "REJECT") :
    evaluate_council s =
      { action := "REITERATE", reason := "REJECT",
        details := [("rejecting_agents",
          PyVal.strList (((councilOutputs s).filter (fun o => o.verdict == "REJECT")).map
            (fun o => o.agent_name)))] } := by
  have h1 := councilOutputs_isEmpty_false s hne
  have h2 : (councilOutputs s).any (fun o => o.verdict == "REJECT") = true := by
    obtain ⟨o, ho, hv⟩ := hrej
    exact List.any_eq_true.mpr ⟨o, ho, by simp [hv]⟩
  unfold evaluate_council
  simp [h1, h2]

/-- Witness for C6, at the spec's example: one REJECT against two
high-confidence APPROVEs still yields REITERATE/REJECT naming only the
rejecting agent. -/
theorem C6_reject_short_circuits_witness :
    evaluate_council sRejectEx =
      { action := "REITERATE", reason := "REJECT",
        details := [("rejecting_agents", PyVal.strList ["risk_qualification"])] } := by
  have h := C6_reject_short_circuits sRejectEx
    (by simp [councilOutputs, sRejectEx, initState, exOutput])
    ⟨exOutput "risk_qualification" "REJECT" (9/10) [],
      by simp [councilOutputs, sRejectEx, initState], rfl⟩
  rw [h]
  simp [councilOutputs, sRejectEx, initState, exOutput]

/-- Claim C7: with outputs present, none rejecting and none blocking, the
cascade decides purely on the arithmetic mean confidence against the 3/4
threshold: TERMINATE/CONSENSUS at or above, REITERATE/LOW_CONFIDENCE below,
the latter carrying the computed mean, the threshold and each agent's
confidence. -/
theorem C7_confidence_threshold (s : CouncilState)
    (hne : councilOutputs s ≠ [])
    (hrej : ∀ o ∈ councilOutputs s, o.verdict ≠ "REJECT")
    (hblk : ∀ o ∈ councilOutputs s, o.blocking_issues = []) :
    ((3 : ℚ)/4 ≤ meanConfidence s →
      evaluate_council s =
        { action := "TERMINATE", reason := "CONSENSUS",
          details := [("average_confidence", PyVal.num (meanConfidence s)),
                      ("verdicts", PyVal.strDict ((councilOutputs s).map (fun o => (o.agent_name, o.verdict)))),
                      ("agent_count", PyVal.int (councilOutputs s).length)] }) ∧
    (meanConfidence s < (3 : ℚ)/4 →
      evaluate_council s =
        { action := "REITERATE", reason := "LOW_CONFIDENCE",
          details := [("average_confidence", PyVal.num (meanConfidence s)),
                      ("threshold", PyVal.num ((3 : ℚ)/4)),
                      ("agent_confidences", PyVal.numDict ((councilOutputs s).map (fun o => (o.agent_name, o.confidence))))] }) := by
  have h1 := councilOutputs_isEmpty_false s hne
  have h2 : (councilOutputs s).any (fun o => o.verdict == "REJECT") = false := by
    rw [List.any_eq_false]
    intro o ho
    simp [hrej o ho]
  have h3 : ((councilOutputs s).filter (fun o => !o.blocking_issues.isEmpty)).map
      (fun o => (o.agent_name, o.blocking_issues)) = ([] : List (String × List String)) := by
    have hf : (councilOutputs s).filter (fun o => !o.blocking_issues.isEmpty) = [] := by
      rw [List.filter_eq_nil_iff]
      intro o ho
      simp [hblk o ho]
    rw [hf]
    rfl
  have key : evaluate_council s =
      if meanConfidence s < (3 : ℚ)/4 then
        { action := "REITERATE", reason := "LOW_CONFIDENCE",
          details := [("average_confidence", PyVal.num (meanConfidence s)),
                      ("threshold", PyVal.num ((3 : ℚ)/4)),
                      ("agent_confidences", PyVal.numDict ((councilOutputs s).map (fun o => (o.agent_name, o.confidence))))] }
      else
        { action := "TERMINATE", reason := "CONSENSUS",
          details := [("average_confidence", PyVal.num (meanConfidence s)),
                      ("verdicts", PyVal.strDict ((councilOutputs s).map (fun o => (o.agent_name, o.verdict)))),
                      ("agent_count", PyVal.int (councilOutputs s).length)] } := by
    unfold evaluate_council meanConfidence
    simp [h1, h2, h3]
  constructor
  · intro hge
    rw [key, if_neg (not_lt.mpr hge)]
  · intro hlt
    rw [key, if_pos hlt]

/-- Witness for C7, at the spec's example: confidences 0.9, 0.8, 0.6, all
APPROVE with no blocking issues, have mean 23/30 ≥ 3/4, hence
TERMINATE/CONSENSUS. -/
theorem C7_confidence_threshold_witness :
    evaluate_council sConsensusEx =
      { action := "TERMINATE", reason := "CONSENSUS",
        details := [("average_confidence", PyVal.num ((23 : ℚ)/30)),
                    ("verdicts", PyVal.strDict
                      [("risk_qualification", "APPROVE"), ("devils_advocate", "APPROVE"),
                       ("personal_suitability", "APPROVE")]),
                    ("agent_count", PyVal.int 3)] } := by
  have hmean : meanConfidence sConsensusEx = (23 : ℚ)/30 := by
    unfold meanConfidence
    simp [councilOutputs, sConsensusEx, initState, exOutput]
    norm_num
  have h := (C7_confidence_threshold sConsensusEx
    (by simp [councilOutputs, sConsensusEx, initState, exOutput])
    (by intro o ho
        simp [councilOutputs, sConsensusEx, initState, exOutput] at ho
        rcases ho with h | h | h <;> simp [h, exOutput])
    (by intro o ho
        simp [councilOutputs, sConsensusEx, initState, exOutput] at ho
        rcases ho with h | h | h <;> simp [h, exOutput])).1
    (by rw [hmean]; norm_num)
  rw [h, hmean]
  simp [councilOutputs, sConsensusEx, initState, exOutput]

/-- Claim C8: with zero present outputs, both evaluators return
REITERATE/NO_OUTPUTS, and the reasoning-service evaluator's result does not
depend on the engine-call outcome at all (in this embedding the call's
outcome is the `engineOutcome` argument, so independence from it is exactly
"the external service is not consulted"). -/
theorem C8_no_outputs_short_circuit (s : CouncilState) (h : councilOutputs s = []) :
    evaluate_council s =
      { action := "REITERATE", reason := "NO_OUTPUTS",
        details := [("message", PyVal.str "Waiting for agent outputs")] } ∧
    ∀ engineOutcome, evaluate_with_ai_engine engineOutcome s =
      { action := "REITERATE", reason := "NO_OUTPUTS",
        details := [("message", PyVal.str "Waiting for agent outputs")] } := by
  have h1 : (councilOutputs s).isEmpty = true := by rw [h]; rfl
  constructor
  · unfold evaluate_council
    simp [h1]
  · intro engineOutcome
    unfold evaluate_with_ai_engine
    simp [h1]

/-- Witness for C8, at the fresh state with no outputs and a raising engine
call. -/
theorem C8_no_outputs_short_circuit_witness :
    evaluate_council (initState 5) =
      { action := "REITERATE", reason := "NO_OUTPUTS",
        details := [("message", PyVal.str "Waiting for agent outputs")] } ∧
    evaluate_with_ai_engine (some (Except.error ())) (initState 5) =
      { action := "REITERATE", reason := "NO_OUTPUTS",
        details := [("message", PyVal.str "Waiting for agent outputs")] } :=
  ⟨(C8_no_outputs_short_circuit (initState 5) rfl).1,
   (C8_no_outputs_short_circuit (initState 5) rfl).2 (some (Except.error ()))⟩

/-- Claim C9: the rules evaluator is deterministic and does not mutate the
council state.  The source function only reads `state` (it contains no
assignment to it), so its embedding is a pure function of the state; two
calls on the same unmodified state are therefore the same value. -/
theorem C9_evaluator_deterministic (s : CouncilState) :
    evaluate_council s = evaluate_council s := rfl

/-- Counterexample to claim C3: a non-empty output set where the service
call succeeds but returns a malformed action (`"FOO"`).  The evaluator does
not fall back to the rules result (which would be TERMINATE/CONSENSUS at
confidence 9/10); it instead coerces the action to REITERATE and reports an
`AI_DECISION` reason, so the two results differ. -/
theorem C3_counterexample :
    evaluate_with_ai_engine (some (Except.ok respMalformed)) sOneApprove ≠
      evaluate_council sOneApprove := by
  have h1 : (evaluate_with_ai_engine (some (Except.ok respMalformed)) sOneApprove).action =
      "REITERATE" := rfl
  have h2 : (evaluate_council sOneApprove).action = "TERMINATE" := by
    unfold evaluate_council
    simp [councilOutputs, sOneApprove, initState, exOutput]
    norm_num
  intro h
  rw [h, h2] at h1
  exact absurd h1 (by decide)

/-- Claim C3 as amended: on a non-empty output set, the evaluator equals the
rules evaluator when the service call raises (and likewise when no engine is
configured); but when the call returns a response whose uppercased action is
outside the two legal values, the evaluator does not consult the rules: it
returns action REITERATE with an `AI_DECISION:`-prefixed reason. -/
theorem C3_fallback_amended (s : CouncilState) (r : AIResponse)
    (hne : councilOutputs s ≠ [])
    (hmal : strUpper (r.action.getD "REITERATE") ∉ (["REITERATE", "TERMINATE"] : List String)) :
    evaluate_with_ai_engine (some (Except.error ())) s = evaluate_council s ∧
    evaluate_with_ai_engine none s = evaluate_council s ∧
    (evaluate_with_ai_engine (some (Except.ok r)) s).action = "REITERATE" ∧
    (evaluate_with_ai_engine (some (Except.ok r)) s).reason =
      "AI_DECISION: " ++ r.reason.getD "No reason" := by
  have h1 := councilOutputs_isEmpty_false s hne
  simp only [List.mem_cons, List.not_mem_nil, or_false, not_or] at hmal
  refine ⟨?_, ?_, ?_, ?_⟩ <;>
    · unfold evaluate_with_ai_engine
      simp [h1, hmal.1, hmal.2]

/-- Witness for the amended C3, at a one-output state and the malformed
response carrying action `"FOO"`. -/
theorem C3_fallback_amended_witness :
    evaluate_with_ai_engine (some (Except.error ())) sOneApprove = evaluate_council sOneApprove ∧
    evaluate_with_ai_engine none sOneApprove = evaluate_council sOneApprove ∧
    (evaluate_with_ai_engine (some (Except.ok respMalformed)) sOneApprove).action = "REITERATE" ∧
    (evaluate_with_ai_engine (some (Except.ok respMalformed)) sOneApprove).reason =
      "AI_DECISION: No reason" :=
  C3_fallback_amended sOneApprove respMalformed
    (by simp [councilOutputs, sOneApprove, initState, exOutput])
    (by decide)

/-- Counterexample to claim C4: the claim lists the reasoning narrative among
the mandatory fields whose absence must fail validation, but the validator's
`required_keys` set does not contain `"reasoning"`: a candidate missing only
that field passes. -/
theorem C4_counterexample :
    cNoReasoning.reasoning = none ∧ validate_agent_output cNoReasoning = true := by
  refine ⟨rfl, ?_⟩
  unfold validate_agent_output requiredKeysPresent cNoReasoning exCandidate
  norm_num

/-- Claim C4 as amended: validation passes iff the seven checked keys
(agent name, verdict, confidence, key findings, blocking issues,
recommendations, metrics — the reasoning narrative is not checked) are all
present, the verdict is one of the three legal values, and the confidence
lies within [0, 1]; equivalently it fails exactly when one of those
conditions is violated. -/
theorem C4_validator_iff (c : CandidateOutput) :
    validate_agent_output c = true ↔
      (c.agent_name ≠ none ∧ c.verdict ≠ none ∧ c.confidence ≠ none ∧
       c.key_findings ≠ none ∧ c.blocking_issues ≠ none ∧
       c.recommendations ≠ none ∧ c.metrics ≠ none ∧
       (c.verdict = some "APPROVE" ∨ c.verdict = some "MODIFY" ∨ c.verdict = some "REJECT") ∧
       ∃ q, c.confidence = some q ∧ 0 ≤ q ∧ q ≤ 1) := by
  obtain ⟨an, v, cf, kf, bi, rc, rs, mt⟩ := c
  rcases an with _ | an <;> rcases v with _ | v <;> rcases cf with _ | cf <;>
    rcases kf with _ | kf <;> rcases bi with _ | bi <;> rcases rc with _ | rc <;>
    rcases mt with _ | mt <;>
      simp [validate_agent_output, requiredKeysPresent, List.contains_cons]

/-- Claim C5: if a registered agent's invocation raises, or its returned
output fails validation, the whole `call_agents` pass behaves as if that
agent were not registered at all: its state slot (and every other field)
keeps the value it had before the invocation, the remaining agents are still
invoked from that unchanged state, and the pass still returns normally.
`pre`/`post` are the agents invoked before/after the failing one, and the
failure hypothesis speaks about the state the failing agent is actually
called on (the state after `pre` ran). -/
theorem C5_failure_isolated (pre post : List (String × AgentFun)) (name : String)
    (f : AgentFun) (s : CouncilState)
    (hfail : f (call_agents pre s) = Except.error () ∨
      ∃ c, f (call_agents pre s) = Except.ok c ∧ validate_agent_output c = false) :
    call_agents (pre ++ (name, f) :: post) s = call_agents (pre ++ post) s := by
  have hstep : call_agent_step (call_agents pre s) name f = call_agents pre s := by
    unfold call_agent_step
    rcases hfail with h | ⟨c, hc, hv⟩
    · rw [h]
    · rw [hc]
      simp [hv]
  unfold call_agents at hstep ⊢
  rw [List.foldl_append, List.foldl_append, List.foldl_cons]
  show List.foldl _ (call_agent_step (List.foldl _ s pre) name f) post = _
  rw [hstep]

/-- Witness for C5: a raising agent registered ahead of a healthy one leaves
the run equal to the run without it. -/
theorem C5_failure_isolated_witness :
    call_agents [("devils_advocate", agentRaises), ("risk_qualification", agentOk)] (initState 5) =
      call_agents [("risk_qualification", agentOk)] (initState 5) :=
  C5_failure_isolated [] [("risk_qualification", agentOk)] "devils_advocate" agentRaises
    (initState 5) (Or.inl rfl)

/-- Claim C10: an agent registered under any name other than the five fixed
state keys is effectively discarded: `_store_agent_output` finds no slot in
the `state_key_map` and leaves the whole state unchanged, so even a valid
output from such an agent (the `call_agents` step for it) cannot influence
the evaluation, the debate history, or the final recommendation. -/
theorem C10_unknown_agent_never_stored (name : String) (s : CouncilState)
    (out : AgentOutput) (f : AgentFun)
    (h : name ∉ (["risk_qualification", "devils_advocate", "personal_suitability",
                  "market_analysis", "feasibility_analysis"] : List String)) :
    store_agent_output s name out = s ∧ call_agent_step s name f = s := by
  simp only [List.mem_cons, List.not_mem_nil, or_false, not_or] at h
  have hs : ∀ o : AgentOutput, store_agent_output s name o = s := by
    intro o
    unfold store_agent_output
    simp [h.1, h.2.1, h.2.2.1, h.2.2.2.1, h.2.2.2.2]
  refine ⟨hs out, ?_⟩
  unfold call_agent_step
  rcases f s with _ | c
  · rfl
  · simp only
    split
    · rfl
    · exact hs _

/-- Witness for C10: a sixth agent name is never stored, whatever it
returns. -/
theorem C10_unknown_agent_never_stored_witness :
    store_agent_output (initState 5) "portfolio_optimizer"
        (exOutput "portfolio_optimizer" "APPROVE" 1 []) = initState 5 ∧
    call_agent_step (initState 5) "portfolio_optimizer" agentOk = initState 5 :=
  C10_unknown_agent_never_stored "portfolio_optimizer" (initState 5)
    (exOutput "portfolio_optimizer" "APPROVE" 1 []) agentOk (by decide)

lemma validate_lowCand :
    validate_agent_output (exCandidate "risk_qualification" "APPROVE" (1/2)) = true := by
  unfold validate_agent_output requiredKeysPresent exCandidate
  norm_num

lemma call_agent_step_low (s : CouncilState) :
    call_agent_step s "risk_qualification" agentLowConf =
      { s with risk_qualification := some lowOut } := by
  show (if !validate_agent_output (exCandidate "risk_qualification" "APPROVE" (1/2)) then s
        else store_agent_output s "risk_qualification"
          (exCandidate "risk_qualification" "APPROVE" (1/2)).toOutput) =
      { s with risk_qualification := some lowOut }
  rw [validate_lowCand]
  rfl

lemma call_agents_lowlist (s : CouncilState) :
    call_agents [("risk_qualification", agentLowConf)] s =
      { s with risk_qualification := some lowOut } :=
  call_agent_step_low s

lemma councilOutputs_low (s : CouncilState)
    (h1 : s.risk_qualification = some lowOut)
    (h2 : s.devils_advocate = none) (h3 : s.personal_suitability = none)
    (h4 : s.market_analysis = none) (h5 : s.feasibility_analysis = none) :
    councilOutputs s = [lowOut] := by
  unfold councilOutputs
  rw [h1, h2, h3, h4, h5]
  rfl

lemma evaluate_council_low (s : CouncilState)
    (h1 : s.risk_qualification = some lowOut)
    (h2 : s.devils_advocate = none) (h3 : s.personal_suitability = none)
    (h4 : s.market_analysis = none) (h5 : s.feasibility_analysis = none) :
    evaluate_council s = Rlow := by
  unfold evaluate_council
  rw [councilOutputs_low s h1 h2 h3 h4 h5]
  show (if (List.map (fun o => o.confidence) [lowOut]).sum /
          (([lowOut] : List AgentOutput).length : ℚ) < (3 : ℚ)/4 then
        ({ action := "REITERATE", reason := "LOW_CONFIDENCE",
           details := [("average_confidence", PyVal.num ((List.map (fun o => o.confidence) [lowOut]).sum /
                          (([lowOut] : List AgentOutput).length : ℚ))),
                       ("threshold", PyVal.num ((3 : ℚ)/4)),
                       ("agent_confidences", PyVal.numDict (List.map (fun o => (o.agent_name, o.confidence)) [lowOut]))] } : EvaluationResult)
      else
        { action := "TERMINATE", reason := "CONSENSUS",
          details := [("average_confidence", PyVal.num ((List.map (fun o => o.confidence) [lowOut]).sum /
                         (([lowOut] : List AgentOutput).length : ℚ))),
                      ("verdicts", PyVal.strDict (List.map (fun o => (o.agent_name, o.verdict)) [lowOut])),
                      ("agent_count", PyVal.int ([lowOut] : List AgentOutput).length)] }) = Rlow
  rw [if_pos (show (List.map (fun o => o.confidence) [lowOut]).sum /
      (([lowOut] : List AgentOutput).length : ℚ) < (3 : ℚ)/4 by norm_num [lowOut, exOutput])]
  norm_num [Rlow, lowOut, exOutput]

lemma should_terminate_low (s : CouncilState)
    (h1 : s.risk_qualification = some lowOut)
    (h2 : s.devils_advocate = none) (h3 : s.personal_suitability = none)
    (h4 : s.market_analysis = none) (h5 : s.feasibility_analysis = none) :
    should_terminate s = decide (s.max_iterations ≤ s.iteration) := by
  unfold should_terminate
  rw [evaluate_council_low s h1 h2 h3 h4 h5]
  by_cases hc : s.max_iterations ≤ s.iteration <;> simp [hc, Rlow]

lemma pass_post_noModify (o : Orchestrator) (s : CouncilState)
    (h1 : s.risk_qualification = some lowOut)
    (h2 : s.devils_advocate = none) (h3 : s.personal_suitability = none)
    (h4 : s.market_analysis = none) (h5 : s.feasibility_analysis = none) :
    pass_post o s = s := by
  unfold pass_post apply_modifications
  rw [councilOutputs_low s h1 h2 h3 h4 h5]
  rfl

lemma evaluate_ai_low (s : CouncilState)
    (h1 : s.risk_qualification = some lowOut)
    (h2 : s.devils_advocate = none) (h3 : s.personal_suitability = none)
    (h4 : s.market_analysis = none) (h5 : s.feasibility_analysis = none) :
    evaluate_with_ai_engine (some (Except.ok respTerminate)) s = Rai := by
  unfold evaluate_with_ai_engine
  rw [councilOutputs_low s h1 h2 h3 h4 h5]
  rfl

lemma orchC1_agents : orchC1.agents = [("risk_qualification", agentLowConf)] := rfl

lemma orchC1_flag : (orchC1.use_ai_decisions && orchC1.ai_engine.isSome) = false := rfl

lemma orchC2_agents : orchC2.agents = [("risk_qualification", agentLowConf)] := rfl

lemma orchC2_flag : (orchC2.use_ai_decisions && orchC2.ai_engine.isSome) = true := rfl

lemma orchC2_engine (s : CouncilState) :
    orchC2.ai_engine.map (fun e => e.evalOutcome s) = some (Except.ok respTerminate) := rfl

lemma pass_pre_C1 (s : CouncilState)
    (h2 : s.devils_advocate = none) (h3 : s.personal_suitability = none)
    (h4 : s.market_analysis = none) (h5 : s.feasibility_analysis = none) :
    pass_pre orchC1 s =
      { s with risk_qualification := some lowOut,
               iteration := s.iteration + 1,
               decision := some Rlow,
               debate_history := s.debate_history ++
                 [lowRecord (s.iteration + 1) "LOW_CONFIDENCE"] } := by
  unfold pass_pre evaluate_and_decide
  simp only [orchC1_agents, orchC1_flag, Bool.false_eq_true, if_false, call_agents_lowlist]
  have he : evaluate_council
      ({ s with risk_qualification := some lowOut, iteration := s.iteration + 1 } : CouncilState) =
      Rlow := evaluate_council_low _ rfl h2 h3 h4 h5
  rw [he]
  unfold iteration_record
  simp only [h2, h3, h4, h5]
  rfl

lemma pass_pre_C2 (s : CouncilState)
    (h2 : s.devils_advocate = none) (h3 : s.personal_suitability = none)
    (h4 : s.market_analysis = none) (h5 : s.feasibility_analysis = none) :
    pass_pre orchC2 s =
      { s with risk_qualification := some lowOut,
               iteration := s.iteration + 1,
               decision := some Rai,
               debate_history := s.debate_history ++
                 [lowRecord (s.iteration + 1) "AI_DECISION: ok"] } := by
  unfold pass_pre evaluate_and_decide
  simp only [orchC2_agents, orchC2_flag, if_true, call_agents_lowlist, orchC2_engine]
  have he : evaluate_with_ai_engine (some (Except.ok respTerminate))
      ({ s with risk_qualification := some lowOut, iteration := s.iteration + 1 } : CouncilState) =
      Rai := evaluate_ai_low _ rfl h2 h3 h4 h5
  rw [he]
  unfold iteration_record
  simp only [h2, h3, h4, h5]
  rfl

lemma C1_pass1 : pass_pre orchC1 (initState 2) = C1s1 := by
  rw [pass_pre_C1 (initState 2) rfl rfl rfl rfl]
  rfl

lemma C1_pass2 : pass_pre orchC1 C1s1 = C1s2 := by
  rw [pass_pre_C1 C1s1 rfl rfl rfl rfl]
  rfl

lemma C1_run : orchestrate orchC1 = C1s2 := by
  have hstep1 : should_terminate (pass_pre orchC1 (initState 2)) = false := by
    rw [C1_pass1, should_terminate_low C1s1 rfl rfl rfl rfl rfl]
    rfl
  have hpost : pass_post orchC1 (pass_pre orchC1 (initState 2)) = C1s1 := by
    rw [C1_pass1]
    exact pass_post_noModify orchC1 C1s1 rfl rfl rfl rfl rfl
  have hstep2 : should_terminate (pass_pre orchC1 C1s1) = true := by
    rw [C1_pass2, should_terminate_low C1s2 rfl rfl rfl rfl rfl]
    rfl
  show orchestrate_loop orchC1 (initState 2) = C1s2
  rw [orchestrate_loop_continue orchC1 (initState 2) hstep1, hpost,
      orchestrate_loop_stop orchC1 C1s1 hstep2, C1_pass2]

/-- Claim C1 fails on the code: in a run with `max_iterations = 2` whose
evaluator never says TERMINATE (`orchC1`), the loop does stop at exactly
iteration 2 with exactly 2 history entries, but the final decision is the
evaluator's last REITERATE/LOW_CONFIDENCE result, not the forced
TERMINATE/MAX_ITERATIONS the spec requires: `should_terminate` already
returns true once `iteration >= max_iterations`, so the step-7 overwrite in
`orchestrate` (`max_overwrite_unreachable`) can never run. -/
theorem C1_max_iterations_never_written :
    (orchestrate orchC1).iteration = 2 ∧
    (orchestrate orchC1).debate_history.length = 2 ∧
    (orchestrate orchC1).decision = some Rlow ∧
    Rlow.action = "REITERATE" ∧ Rlow.reason = "LOW_CONFIDENCE" := by
  refine ⟨?_, ?_, ?_, rfl, rfl⟩ <;> rw [C1_run] <;> rfl

lemma C2_pass1 : pass_pre orchC2 (initState 3) = C2s1 := by
  rw [pass_pre_C2 (initState 3) rfl rfl rfl rfl]
  rfl

lemma C2_pass2 : pass_pre orchC2 C2s1 = C2s2 := by
  rw [pass_pre_C2 C2s1 rfl rfl rfl rfl]
  rfl

lemma C2_pass3 : pass_pre orchC2 C2s2 = C2s3 := by
  rw [pass_pre_C2 C2s2 rfl rfl rfl rfl]
  rfl

lemma C2_run : orchestrate orchC2 = C2s3 := by
  have hstep1 : should_terminate (pass_pre orchC2 (initState 3)) = false := by
    rw [C2_pass1, should_terminate_low C2s1 rfl rfl rfl rfl rfl]
    rfl
  have hstep2 : should_terminate (pass_pre orchC2 C2s1) = false := by
    rw [C2_pass2, should_terminate_low C2s2 rfl rfl rfl rfl rfl]
    rfl
  have hstep3 : should_terminate (pass_pre orchC2 C2s2) = true := by
    rw [C2_pass3, should_terminate_low C2s3 rfl rfl rfl rfl rfl]
    rfl
  have hpost1 : pass_post orchC2 (pass_pre orchC2 (initState 3)) = C2s1 := by
    rw [C2_pass1]
    exact pass_post_noModify orchC2 C2s1 rfl rfl rfl rfl rfl
  have hpost2 : pass_post orchC2 (pass_pre orchC2 C2s1) = C2s2 := by
    rw [C2_pass2]
    exact pass_post_noModify orchC2 C2s2 rfl rfl rfl rfl rfl
  show orchestrate_loop orchC2 (initState 3) = C2s3
  rw [orchestrate_loop_continue orchC2 (initState 3) hstep1, hpost1,
      orchestrate_loop_continue orchC2 C2s1 hstep2, hpost2,
      orchestrate_loop_stop orchC2 C2s2 hstep3, C2_pass3]

/-- Claim C2 fails on the code: in AI mode (`orchC2`) the stored decision
after the first pass has action TERMINATE and the iteration counter is below
the cap, yet the loop's exit check (`should_terminate`, which re-runs the
rules evaluator and never reads `state["decision"]`) is false, and the run
in fact continues to iteration 3.  So "stored decision action == TERMINATE"
does not imply exit, contradicting the claimed exit condition. -/
theorem C2_exit_ignores_stored_decision :
    (pass_pre orchC2 (initState 3)).decision.map (fun d => d.action) = some "TERMINATE" ∧
    (pass_pre orchC2 (initState 3)).iteration < (pass_pre orchC2 (initState 3)).max_iterations ∧
    should_terminate (pass_pre orchC2 (initState 3)) = false ∧
    (orchestrate orchC2).iteration = 3 ∧
    (orchestrate orchC2).debate_history.length = 3 := by
  refine ⟨?_, ?_, ?_, ?_, ?_⟩
  · rw [C2_pass1]
    rfl
  · rw [C2_pass1]
    show (1 : Nat) < 3
    norm_num
  · rw [C2_pass1, should_terminate_low C2s1 rfl rfl rfl rfl rfl]
    rfl
  · rw [C2_run]
    rfl
  · rw [C2_run]
    rfl

